import Mathlib

/-!
Verification development for the billing, payment-processing and
notification-dispatch core of the gym-management system.

The JavaScript source is shallowly embedded:

* Firestore collections become association lists keyed by document id
  (`Coll`), with `set` = upsert (`doc(id).set`) and `update` failing on a
  missing document (`doc(id).update`).
* Asynchronous functions that can throw become functions into
  `Except String _`; in every modelled error path the source throws
  before performing any write, so an `Except.error` result stands for a
  run that left the store untouched.
* `Date` values become abstract `Nat` ticks supplied by the caller; the
  outcome of `Math.random`-driven settlement simulation and of id
  generation is likewise passed in as an explicit parameter, matching the
  shape (`success`-with-token xor `failure`-with-reason) the source
  produces.
* JavaScript peculiarities that matter to the embedded control flow
  (`parseInt` returning NaN, NaN-comparisons being false, `||` defaulting
  on falsy values) are modelled explicitly via `Option`.
-/

namespace GymMgmt

/-- Character class matched by the JavaScript whitespace escape used in
`replace(/\s/g, '')` and skipped by `parseInt` (ASCII part). -/
def isJsWhitespace (c : Char) : Bool :=
  c = ' ' || c = '\t' || c = '\n' || c = '\r' || c = '\x0b' || c = '\x0c'

/-- Embedding of `cardNumber.replace(/\s/g, '')`: drop every whitespace
character of the string. -/
def stripWS (s : String) : String :=
  String.mk (s.data.filter (fun c => !isJsWhitespace c))

/-- Numeric value of a digit character (`parseInt(cleaned.charAt(i))` on a
string already known to consist of digits). -/
def charDigit (c : Char) : Nat :=
  c.toNat - '0'.toNat

/-- One doubling step of the Luhn algorithm: `digit *= 2; if (digit > 9)
digit -= 9` (and identically the spec's "double ...; if a doubled digit
exceeds 9, subtract 9"). -/
def luhnDouble (d : Nat) : Nat :=
  if d * 2 > 9 then d * 2 - 9 else d * 2

/-- The loop of `validateCardNumber` (src/unnamed/part_002 lines 472-487)
over the digits taken from the rightmost end first, carrying the `isEven`
flag, which starts `false` and toggles at each step. -/
def luhnLoop : List Nat → Bool → Nat
  | [], _ => 0
  | d :: rest, isEven => (if isEven then luhnDouble d else d) + luhnLoop rest (!isEven)

/-- Embedding of `validateCardNumber` (src/unnamed/part_002 lines 465-490):
strip whitespace, require 13-19 digits, then accept iff the Luhn sum is
divisible by 10. -/
def validateCardNumber (cardNumber : String) : Bool :=
  let cleaned := stripWS cardNumber
  if !(cleaned.data.all Char.isDigit && decide (13 ≤ cleaned.length)
        && decide (cleaned.length ≤ 19)) then
    false
  else
    luhnLoop ((cleaned.data.reverse).map charDigit) false % 10 == 0

/-- Leading decimal digits of a character list, or `none` when there are
none (the NaN case of `parseInt`). -/
def parseDigits (cs : List Char) : Option Nat :=
  let ds := cs.takeWhile Char.isDigit
  if ds.isEmpty then none
  else some (ds.foldl (fun acc c => acc * 10 + charDigit c) 0)

/-- JavaScript `parseInt(s)` in radix 10: skip leading whitespace, read an
optional sign and then leading digits; `none` models NaN. -/
def parseIntJs (s : String) : Option Int :=
  match s.data.dropWhile isJsWhitespace with
  | '-' :: rest => (parseDigits rest).map (fun n => -(n : Int))
  | '+' :: rest => (parseDigits rest).map (fun n => (n : Int))
  | rest => (parseDigits rest).map (fun n => (n : Int))

/-- JavaScript `<` where either side may be NaN: any comparison against
NaN is false. -/
def jsLt (a b : Option Int) : Bool :=
  match a, b with
  | some x, some y => x < y
  | _, _ => false

/-- JavaScript `>` with NaN semantics. -/
def jsGt (a b : Option Int) : Bool :=
  jsLt b a

/-- JavaScript `===` on numbers where either side may be NaN. -/
def jsEqNum (a b : Option Int) : Bool :=
  match a, b with
  | some x, some y => x == y
  | _, _ => false

/-- JavaScript `String.prototype.split` with a one-character separator,
on character lists: `"12/30".split('/') = ["12","30"]`, a string without
the separator yields a single group, and a trailing separator yields a
trailing empty group. -/
def splitOnChar (sep : Char) : List Char → List (List Char)
  | [] => [[]]
  | c :: rest =>
    let r := splitOnChar sep rest
    if c = sep then [] :: r
    else
      match r with
      | [] => [[c]]
      | g :: gs => (c :: g) :: gs

/-- Embedding of `validateExpiryDate` (src/unnamed/part_002 lines 493-506).
The current date is abstracted to `curYear2` (full year mod 100) and
`curMonth` (1-12), the two values the source derives from `new Date()`.
`expiry.split('/')` destructured as `[month, year]` leaves `year`
undefined when there is no `/`; `parseInt` of a missing or non-numeric
part is NaN, modelled by `none`. -/
def validateExpiryDate (curYear2 curMonth : Nat) (expiry : String) : Bool :=
  let parts := (splitOnChar '/' expiry.data).map String.mk
  let expMonth : Option Int := match parts[0]? with
    | some str => parseIntJs str
    | none => none
  let expYear : Option Int := match parts[1]? with
    | some str => parseIntJs str
    | none => none
  if jsLt expMonth (some 1) || jsGt expMonth (some 12) then false
  else if jsLt expYear (some (curYear2 : Int))
      || (jsEqNum expYear (some (curYear2 : Int)) && jsLt expMonth (some (curMonth : Int))) then
    false
  else true

/-- Embedding of `validateCVV` (src/unnamed/part_002 lines 509-511), the
regular expression test for 3 or 4 digits. -/
def validateCVV (cvv : String) : Bool :=
  cvv.data.all Char.isDigit && (cvv.length == 3 || cvv.length == 4)

/-- Card instrument as consumed by `validateCardData`. -/
structure CardData where
  number : String
  expiry : String
  cvv : String
deriving Repr, DecidableEq

/-- The `errors` array accumulated inside `validateCardData`
(src/unnamed/part_002 lines 443-461): each of the three checks runs
unconditionally and pushes its own message on failure. -/
def cardDataErrors (curYear2 curMonth : Nat) (card : CardData) : List String :=
  (if !validateCardNumber card.number then ["Invalid card number"] else [])
    ++ (if !validateExpiryDate curYear2 curMonth card.expiry then ["Invalid expiry date"] else [])
    ++ (if !validateCVV card.cvv then ["Invalid CVV"] else [])

/-- Embedding of `validateCardData` (src/unnamed/part_002 lines 443-462):
the function returns only `errors.length === 0`, a boolean. -/
def validateCardData (curYear2 curMonth : Nat) (card : CardData) : Bool :=
  (cardDataErrors curYear2 curMonth card).length == 0

/-- Anchored-prefix test on strings, embedding the `/^.../.test(s)`
regular-expression idiom of `getCardType`. -/
def strHasPrefix (p s : String) : Bool :=
  List.isPrefixOf p.data s.data

/-- Embedding of `getCardType` (src/unnamed/part_002 lines 514-523):
classification by leading-digit prefixes (`5[1-5]` and `3[47]` expanded
into their finitely many prefixes). -/
def getCardType (cardNumber : String) : String :=
  let cleaned := stripWS cardNumber
  if strHasPrefix "4" cleaned then "visa"
  else if strHasPrefix "51" cleaned || strHasPrefix "52" cleaned || strHasPrefix "53" cleaned
      || strHasPrefix "54" cleaned || strHasPrefix "55" cleaned then "mastercard"
  else if strHasPrefix "34" cleaned || strHasPrefix "37" cleaned then "amex"
  else if strHasPrefix "6" cleaned then "discover"
  else "unknown"

/-- Embedding of `padStart(n, '0')` for the numeric fragments of generated
identifiers. -/
def padZeros (s : String) (len : Nat) : String :=
  if len ≤ s.length then s else String.mk (List.replicate (len - s.length) '0') ++ s

/-- Embedding of `utils.formatters.generateReceiptNumber`
(src/js/utils.js lines 110-117): `RCP-YYYYMMDD-RRRR` built from the
current date and a random draw below 10000; date parts and the draw are
explicit parameters here. -/
def generateReceiptNumber (year month day rand : Nat) : String :=
  "RCP-" ++ toString year ++ padZeros (toString month) 2 ++ padZeros (toString day) 2
    ++ "-" ++ padZeros (toString rand) 4

/-- A Firestore collection: documents keyed by id, modelled as an
association list. -/
abbrev Coll (α : Type) := List (String × α)

/-- Document lookup, `collection.doc(id).get`. -/
def Coll.get {α : Type} : Coll α → String → Option α
  | [], _ => none
  | (k, v) :: rest, i => if k = i then some v else Coll.get rest i

/-- Document upsert, `collection.doc(id).set(doc)`: overwrite the document
when the key exists, insert it otherwise. -/
def Coll.set {α : Type} : Coll α → String → α → Coll α
  | [], i, v => [(i, v)]
  | (k, w) :: rest, i, v => if k = i then (i, v) :: rest else (k, w) :: Coll.set rest i v

/-- Bill document as created by the payment service. -/
structure Bill where
  id : String
  memberId : String
  amount : Int
  description : String
  dueDate : Nat
  status : String
  billType : String
  createdAt : Nat
  updatedAt : Nat
deriving Repr, DecidableEq

/-- Payment request as accepted by `processPayment`; `cardLast4` and
`cardType` are the extra fields `processCardPayment` spreads in (they are
not copied into the persisted Payment document, which mirrors the
source's explicit field list). -/
structure PaymentData where
  memberId : String
  memberName : String
  billId : Option String
  amount : Int
  paymentMethod : String
  description : String
  transactionId : Option String
  cardLast4 : Option String
  cardType : Option String
deriving Repr, DecidableEq

/-- Payment document as built by `processPayment` (src/unnamed/part_002
lines 164-177) with the fields mutated later in the function
(`status`, `processedAt`, `errorMessage`). -/
structure Payment where
  id : String
  memberId : String
  memberName : String
  billId : Option String
  amount : Int
  paymentMethod : String
  paymentDate : Nat
  status : String
  description : String
  transactionId : Option String
  errorMessage : Option String
  processedAt : Option Nat
  createdAt : Nat
  updatedAt : Nat
deriving Repr, DecidableEq

/-- Receipt document as built by `createReceipt` (src/unnamed/part_002
lines 306-317). -/
structure Receipt where
  id : String
  paymentId : String
  memberId : String
  memberName : String
  amount : Int
  paymentMethod : String
  paymentDate : Nat
  receiptNumber : String
  status : String
  createdAt : Nat
deriving Repr, DecidableEq

/-- Notification document as built by `sendNotification` and
`sendBulkNotifications` (src/js/notification-service.js lines 200-211 and
234-245; the two object literals are field-for-field identical). -/
structure NotificationRec where
  id : String
  memberId : String
  type : String
  title : String
  message : String
  priority : String
  status : String
  data : String
  createdAt : Nat
  readAt : Option Nat
deriving Repr, DecidableEq

/-- Notification request; `priority` and `data` may be absent
(`undefined`), which the source defaults with `||`. -/
structure NotificationRequest where
  memberId : String
  type : String
  title : String
  message : String
  priority : Option String
  data : Option String
deriving Repr, DecidableEq

/-- The persistence layer: the four collections the claims touch. -/
structure Store where
  bills : Coll Bill
  payments : Coll Payment
  receipts : Coll Receipt
  notifications : Coll NotificationRec
deriving Repr, DecidableEq

/-- Outcome of `simulatePaymentProcessing` (src/unnamed/part_002 lines
219-237): exactly one of success-with-token or failure-with-reason; the
`Math.random` draw deciding which is abstracted into this parameter. -/
inductive SettlementResult where
  | success (transactionId : String)
  | failure (error : String)
deriving Repr, DecidableEq

/-- Embedding of `updateBillStatus` (src/unnamed/part_002 lines 138-155):
a Firestore `update` writing `status` and `updatedAt`, which throws when
the bill document does not exist and otherwise writes the given status
with no legality check whatsoever. -/
def updateBillStatus (s : Store) (billId status : String) (now : Nat) : Except String Store :=
  match Coll.get s.bills billId with
  | none => Except.error "Bill document not found"
  | some b =>
      Except.ok { s with bills := Coll.set s.bills billId { b with status := status, updatedAt := now } }

/-- The receipt object literal of `createReceipt` (src/unnamed/part_002
lines 306-317): keyed by the freshly generated `receiptId`, never by the
payment's identifier. -/
def mkReceipt (payment : Payment) (receiptId : String) (now : Nat) : Receipt :=
  { id := receiptId
    paymentId := payment.id
    memberId := payment.memberId
    memberName := payment.memberName
    amount := payment.amount
    paymentMethod := payment.paymentMethod
    paymentDate := payment.paymentDate
    receiptNumber := receiptId
    status := "completed"
    createdAt := now }

/-- Embedding of `createReceipt` (src/unnamed/part_002 lines 302-330):
generate a fresh receipt id (passed in as `receiptId`), write the receipt
document under that id, return the id. No lookup of an existing receipt
for the payment is performed. -/
def createReceipt (s : Store) (payment : Payment) (receiptId : String) (now : Nat) :
    Store × String :=
  ({ s with receipts := Coll.set s.receipts receiptId (mkReceipt payment receiptId now) }, receiptId)

/-- One write against the store, in the order `processPayment` issues
them; the trace of a run records every document write of the run. -/
inductive WriteEvent where
  | billWrite (billId status : String)
  | paymentWrite (paymentId status : String)
  | receiptWrite (receiptId paymentId : String)
deriving Repr, DecidableEq

/-- Result of a completed (non-throwing) `processPayment` run: the final
store, the ordered write trace, and the `{paymentId, success, message}`
object the source returns. -/
structure RunResult where
  store : Store
  trace : List WriteEvent
  paymentId : String
  success : Bool
  message : String
deriving Repr, DecidableEq

/-- Embedding of `processPayment` (src/unnamed/part_002 lines 160-216).
Control flow of the source: build the payment object in memory with
status `pending`; run the settlement simulation; on success set the
status to `completed`, stamp `processedAt`, and update the referenced
bill to `paid` (a throwing `update` aborts the whole call before any
other write); on failure set the status to `failed` with the reason; only
then write the payment document once, and finally create the receipt when
the payment completed. The generated payment and receipt identifiers and
the clock are explicit parameters. -/
def processPayment (s : Store) (pd : PaymentData) (paymentId receiptId : String)
    (res : SettlementResult) (now : Nat) : Except String RunResult :=
  let payment : Payment :=
    { id := paymentId
      memberId := pd.memberId
      memberName := pd.memberName
      billId := pd.billId
      amount := pd.amount
      paymentMethod := pd.paymentMethod
      paymentDate := now
      status := "pending"
      description := pd.description
      transactionId := pd.transactionId
      errorMessage := none
      processedAt := none
      createdAt := now
      updatedAt := now }
  match res with
  | SettlementResult.success _ =>
      let payment := { payment with status := "completed", processedAt := some now }
      match pd.billId with
      | some billId =>
          match updateBillStatus s billId "paid" now with
          | Except.error e => Except.error e
          | Except.ok s1 =>
              let s2 := { s1 with payments := Coll.set s1.payments paymentId payment }
              let s3 := (createReceipt s2 payment receiptId now).1
              Except.ok
                { store := s3
                  trace := [WriteEvent.billWrite billId "paid",
                            WriteEvent.paymentWrite paymentId "completed",
                            WriteEvent.receiptWrite receiptId paymentId]
                  paymentId := paymentId
                  success := true
                  message := "Payment processed successfully" }
      | none =>
          let s2 := { s with payments := Coll.set s.payments paymentId payment }
          let s3 := (createReceipt s2 payment receiptId now).1
          Except.ok
            { store := s3
              trace := [WriteEvent.paymentWrite paymentId "completed",
                        WriteEvent.receiptWrite receiptId paymentId]
              paymentId := paymentId
              success := true
              message := "Payment processed successfully" }
  | SettlementResult.failure err =>
      let payment := { payment with status := "failed", errorMessage := some err }
      let s2 := { s with payments := Coll.set s.payments paymentId payment }
      Except.ok
        { store := s2
          trace := [WriteEvent.paymentWrite paymentId "failed"]
          paymentId := paymentId
          success := false
          message := err }

/-- JavaScript `number.slice(-4)`: the last four characters (the whole
string when shorter). -/
def sliceLast4 (s : String) : String :=
  String.mk (s.data.drop (s.data.length - 4))

/-- Embedding of `processCardPayment` (src/unnamed/part_002 lines
240-262): when `validateCardData` fails it throws the fixed
`'Invalid card information'` error before anything is written and before
any settlement attempt; otherwise it shapes the request (method `card`,
masked suffix, classified type) and delegates to `processPayment`. -/
def processCardPayment (s : Store) (pd : PaymentData) (card : CardData)
    (paymentId receiptId : String) (res : SettlementResult) (now curYear2 curMonth : Nat) :
    Except String RunResult :=
  if validateCardData curYear2 curMonth card = false then
    Except.error "Invalid card information"
  else
    let cardPd := { pd with
      paymentMethod := "card"
      cardLast4 := some (sliceLast4 card.number)
      cardType := some (getCardType card.number) }
    processPayment s cardPd paymentId receiptId res now

/-- JavaScript `v || d` for string-valued fields: default on `undefined`
(modelled `none`) and on the falsy empty string. -/
def jsOrString (v : Option String) (d : String) : String :=
  match v with
  | none => d
  | some str => if str = "" then d else str

/-- The notification object literal shared verbatim by `sendNotification`
(src/js/notification-service.js lines 200-211) and
`sendBulkNotifications` (lines 234-245): `priority` defaults to
`this.priorities.MEDIUM = 'medium'`, `status` is `'unread'`, `data`
defaults to the empty object, `readAt` is `null`. -/
def mkNotification (req : NotificationRequest) (nid : String) (now : Nat) : NotificationRec :=
  { id := nid
    memberId := req.memberId
    type := req.type
    title := req.title
    message := req.message
    priority := jsOrString req.priority "medium"
    status := "unread"
    data := jsOrString req.data "{}"
    createdAt := now
    readAt := none }

/-- Embedding of `sendNotification` (src/js/notification-service.js lines
196-224): write the notification document under the generated id and
return the id. -/
def sendNotification (s : Store) (req : NotificationRequest) (nid : String) (now : Nat) :
    Store × String :=
  ({ s with notifications := Coll.set s.notifications nid (mkNotification req nid now) }, nid)

/-- Embedding of `sendBulkNotifications` (src/js/notification-service.js
lines 227-266): one batched write of a notification document per request,
each under its own generated id (the ids are passed in, paired with the
requests), returning the generated ids. -/
def sendBulkNotifications (s : Store) (reqs : List NotificationRequest) (ids : List String)
    (now : Nat) : Store × List String :=
  ((reqs.zip ids).foldl
      (fun st p => { st with notifications := Coll.set st.notifications p.2 (mkNotification p.1 p.2 now) })
      s,
   (reqs.zip ids).map Prod.snd)

/-- The query of `getUnreadNotificationCount`: notifications of the member
with status `'unread'`. -/
def unreadFor (s : Store) (memberId : String) : List (String × NotificationRec) :=
  s.notifications.filter (fun p => p.2.memberId == memberId && p.2.status == "unread")

/-- Embedding of `getUnreadNotificationCount`
(src/js/notification-service.js lines 364-378): return the size of the
unread query snapshot, and `0` from the catch block when the persistence
query fails; the query outcome is the `Except` parameter. -/
def getUnreadNotificationCount (qres : Except String Store) (memberId : String) : Nat :=
  match qres with
  | Except.ok s => (unreadFor s memberId).length
  | Except.error _ => 0

/-- Luhn sum of the reversed digit list starting at an arbitrary position
index; position 0 is the rightmost digit. Bridges the loop of the source
and the position-indexed description of the spec. -/
def luhnFrom : List Nat → Nat → Nat
  | [], _ => 0
  | d :: rest, i => (if i % 2 == 1 then luhnDouble d else d) + luhnFrom rest (i + 1)

/-- Modelled from the spec's wording of the Luhn checksum: "double every
second digit from the rightmost; if a doubled digit exceeds 9, subtract
9; sum all digits" — the input lists the digits from the rightmost end,
and the digits at odd positions from the right are the doubled ones. -/
def luhnSumSpec (revDigits : List Nat) : Nat :=
  ((revDigits.enum).map (fun p => if p.1 % 2 == 1 then luhnDouble p.2 else p.2)).sum

/-- Position of the first event satisfying the predicate in a write
trace. -/
def firstIdxWhere (p : WriteEvent → Bool) : List WriteEvent → Option Nat
  | [] => none
  | e :: rest => if p e then some 0 else (firstIdxWhere p rest).map (fun n => n + 1)

/-- Recogniser for payment-document writes. -/
def WriteEvent.isPaymentEv : WriteEvent → Bool
  | WriteEvent.paymentWrite _ _ => true
  | _ => false

/-- Recogniser for bill-document writes. -/
def WriteEvent.isBillEv : WriteEvent → Bool
  | WriteEvent.billWrite _ _ => true
  | _ => false

/-- Statuses carried by the payment-document writes of a trace, in write
order. -/
def paymentWriteStatuses (t : List WriteEvent) : List String :=
  t.filterMap (fun e =>
    match e with
    | WriteEvent.paymentWrite _ st => some st
    | _ => none)

/-- The relative order the spec demands of a trace: the first
payment-document write precedes the first bill-document write (vacuously
true when either kind of write is absent). -/
def paymentBeforeBill (t : List WriteEvent) : Bool :=
  match firstIdxWhere WriteEvent.isPaymentEv t, firstIdxWhere WriteEvent.isBillEv t with
  | some p, some b => decide (p < b)
  | _, _ => true

/-- Final payment status determined by a settlement outcome. -/
def settlementStatus : SettlementResult → String
  | SettlementResult.success _ => "completed"
  | SettlementResult.failure _ => "failed"

/-- Write trace of a run; a thrown run performed no writes. -/
def runTrace : Except String RunResult → List WriteEvent
  | Except.ok r => r.trace
  | Except.error _ => []

/-- The result of a run known to have completed (a placeholder otherwise). -/
def runResultD : Except String RunResult → RunResult
  | Except.ok r => r
  | Except.error _ =>
      { store := { bills := [], payments := [], receipts := [], notifications := [] }
        trace := [], paymentId := "", success := false, message := "" }

/-- Number of receipt documents referencing a given payment. -/
def receiptsForPayment (s : Store) (paymentId : String) : Nat :=
  (s.receipts.filter (fun q => q.2.paymentId == paymentId)).length

/-- Status of a bill after a transition attempt (`none` when the attempt
threw or the bill is absent). -/
def billStatusIn (e : Except String Store) (billId : String) : Option String :=
  match e with
  | Except.ok s => (Coll.get s.bills billId).map Bill.status
  | Except.error _ => none

/-- A pending bill fixture. -/
def bill1 : Bill :=
  { id := "B1", memberId := "M1", amount := 100, description := "membership fee"
    dueDate := 10, status := "pending", billType := "membership", createdAt := 0, updatedAt := 0 }

/-- A bill fixture already in the terminal `paid` status. -/
def billPaid : Bill :=
  { bill1 with id := "B2", status := "paid" }

/-- The empty store. -/
def store0 : Store :=
  { bills := [], payments := [], receipts := [], notifications := [] }

/-- A store holding the single pending bill `B1`. -/
def store1 : Store :=
  { store0 with bills := [("B1", bill1)] }

/-- A store holding the single paid bill `B2`. -/
def storePaid : Store :=
  { store0 with bills := [("B2", billPaid)] }

/-- A cash payment request referencing bill `B1`. -/
def pd1 : PaymentData :=
  { memberId := "M1", memberName := "Ada", billId := some "B1", amount := 100
    paymentMethod := "cash", description := "membership fee", transactionId := none
    cardLast4 := none, cardType := none }

/-- The same request with no bill reference. -/
def pdNoBill : PaymentData :=
  { pd1 with billId := none }

/-- A completed payment fixture, as `createReceipt` expects. -/
def paymentDone : Payment :=
  { id := "P1", memberId := "M1", memberName := "Ada", billId := some "B1", amount := 100
    paymentMethod := "cash", paymentDate := 1, status := "completed"
    description := "membership fee", transactionId := none, errorMessage := none
    processedAt := some 1, createdAt := 1, updatedAt := 1 }

/-- A card instrument failing only the Luhn check. -/
def cardBadNumber : CardData :=
  { number := "4532015112830367", expiry := "12/30", cvv := "123" }

/-- A card instrument failing only the CVV check. -/
def cardBadCvvOnly : CardData :=
  { number := "4532015112830366", expiry := "12/30", cvv := "12" }

/-- A card instrument failing all three checks. -/
def cardAllBad : CardData :=
  { number := "1234", expiry := "00/00", cvv := "1" }

/-- A notification request that omits the priority and the payload. -/
def req0 : NotificationRequest :=
  { memberId := "M1", type := "welcome", title := "Welcome", message := "Welcome to the gym"
    priority := none, data := none }

/-- The concrete run used to witness the payment-write claims: empty
store, no bill reference, successful settlement. -/
def c8r : RunResult :=
  runResultD (processPayment store0 pdNoBill "P1" "R1" (SettlementResult.success "T") 0)

/-- Reading back the key just written returns the written document. -/
theorem Coll.get_set_self {α : Type} (c : Coll α) (k : String) (v : α) :
    Coll.get (Coll.set c k v) k = some v := by
  induction c with
  | nil => simp [Coll.set, Coll.get]
  | cons hd tl ih =>
      obtain ⟨k0, w⟩ := hd
      by_cases h : k0 = k
      · simp [Coll.set, Coll.get, h]
      · simp [Coll.set, Coll.get, h, ih]

/-- Writing one key leaves every other key unchanged. -/
theorem Coll.get_set_ne {α : Type} (c : Coll α) (k k' : String) (v : α) (h : k ≠ k') :
    Coll.get (Coll.set c k v) k' = Coll.get c k' := by
  induction c with
  | nil => simp [Coll.set, Coll.get, h]
  | cons hd tl ih =>
      obtain ⟨k0, w⟩ := hd
      by_cases h0 : k0 = k
      · subst h0
        simp [Coll.set, Coll.get, h]
      · by_cases h1 : k0 = k'
        · subst h1
          simp [Coll.set, Coll.get, h0, Ne.symm h]
        · simp [Coll.set, Coll.get, h0, h1, ih]

/-- Toggling the alternation flag matches stepping the position index. -/
theorem mod_two_toggle (i : Nat) : (!(i % 2 == 1)) = ((i + 1) % 2 == 1) := by
  rcases Nat.mod_two_eq_zero_or_one i with h | h <;> simp [h, Nat.add_mod]

/-- The source's loop, started with flag value `i % 2 == 1`, computes the
position-indexed Luhn sum from position `i`. -/
theorem luhnLoop_luhnFrom (l : List Nat) : ∀ i : Nat, luhnLoop l (i % 2 == 1) = luhnFrom l i := by
  induction l with
  | nil => intro i; rfl
  | cons d rest ih =>
      intro i
      show (if (i % 2 == 1) then luhnDouble d else d) + luhnLoop rest (!(i % 2 == 1)) =
        (if i % 2 == 1 then luhnDouble d else d) + luhnFrom rest (i + 1)
      rw [mod_two_toggle, ih (i + 1)]

/-- The position-indexed Luhn sum is the enumerate-map-sum form. -/
theorem luhnFrom_enumFrom (l : List Nat) : ∀ i : Nat,
    luhnFrom l i =
      ((List.enumFrom i l).map (fun p => if p.1 % 2 == 1 then luhnDouble p.2 else p.2)).sum := by
  induction l with
  | nil => intro i; rfl
  | cons d rest ih =>
      intro i
      simp [luhnFrom, List.enumFrom, ih (i + 1)]

/-- The loop of `validateCardNumber`, started with `isEven = false` as the
source does, computes exactly the spec's Luhn sum. -/
theorem luhnLoop_false_spec (l : List Nat) : luhnLoop l false = luhnSumSpec l := by
  have h := luhnLoop_luhnFrom l 0
  simp only [Nat.zero_mod] at h
  rw [show ((0 : Nat) == 1) = false from rfl] at h
  rw [h, luhnFrom_enumFrom]
  rfl

/-- Every notification document readable after the bulk batch write is
either a pre-existing document or the document built from one of the
request/id pairs. -/
theorem bulk_foldl_get (now : Nat) :
    ∀ (ps : List (NotificationRequest × String)) (s : Store) (k : String) (r : NotificationRec),
      Coll.get
        ((ps.foldl
          (fun st p =>
            { st with notifications := Coll.set st.notifications p.2 (mkNotification p.1 p.2 now) })
          s).notifications) k = some r →
      Coll.get s.notifications k = some r ∨ ∃ q i, (q, i) ∈ ps ∧ r = mkNotification q i now := by
  intro ps
  induction ps with
  | nil => intro s k r h; exact Or.inl h
  | cons p rest ih =>
      obtain ⟨q0, i0⟩ := p
      intro s k r h
      rcases ih _ k r h with h' | ⟨q, i, hin, hr⟩
      · by_cases hk : i0 = k
        · subst hk
          rw [Coll.get_set_self] at h'
          exact Or.inr ⟨q0, i0, List.mem_cons_self _ _, (Option.some.inj h').symm⟩
        · rw [Coll.get_set_ne _ _ _ _ hk] at h'
          exact Or.inl h'
      · exact Or.inr ⟨q, i, List.mem_cons_of_mem _ hin, hr⟩

/-- C1, counterexample. The claim requires the payment document to be
durably written as `completed` before the referenced bill is transitioned
to `paid`. In the concrete successful run below (pending bill `B1`,
settlement success), `processPayment` writes the bill first: the trace is
bill write, then payment write, then receipt write, so the first payment
write does not precede the first bill write. -/
theorem C1_claimed_order_counterexample :
    runTrace (processPayment store1 pd1 "P1" "R1" (SettlementResult.success "T") 3) =
      [WriteEvent.billWrite "B1" "paid", WriteEvent.paymentWrite "P1" "completed",
       WriteEvent.receiptWrite "R1" "P1"] ∧
    paymentBeforeBill
      (runTrace (processPayment store1 pd1 "P1" "R1" (SettlementResult.success "T") 3)) = false := by
  exact ⟨by decide, by decide⟩

/-- C1 (amended): for every payment whose settlement succeeds and that
references an existing bill, the writes occur and are observable in the
order: the referenced bill transitioned to `paid` first, then the payment
document written once, already marked `completed`, then the receipt
created; `processPayment` itself writes no notification (the confirmation
is left to an out-of-band listener). A reader may therefore observe a
`paid` bill while the payment document is still absent. -/
theorem C1_amended_write_order (s : Store) (pd : PaymentData) (b : String) (bill : Bill)
    (pid rid tok : String) (now : Nat) (hb : pd.billId = some b)
    (hget : Coll.get s.bills b = some bill) :
    ∃ r, processPayment s pd pid rid (SettlementResult.success tok) now = Except.ok r ∧
      r.trace = [WriteEvent.billWrite b "paid", WriteEvent.paymentWrite pid "completed",
                 WriteEvent.receiptWrite rid pid] ∧
      r.store.notifications = s.notifications := by
  simp only [processPayment, hb, updateBillStatus, hget]
  exact ⟨_, rfl, rfl, rfl⟩

/-- Witness for the amended C1 theorem at the concrete pending-bill
store. -/
theorem C1_amended_write_order_witness :
    runTrace (processPayment store1 pd1 "P1" "R1" (SettlementResult.success "T") 3) =
      [WriteEvent.billWrite "B1" "paid", WriteEvent.paymentWrite "P1" "completed",
       WriteEvent.receiptWrite "R1" "P1"] := by
  obtain ⟨r, hr, ht, -⟩ :=
    C1_amended_write_order store1 pd1 "B1" bill1 "P1" "R1" "T" 3 rfl (by decide)
  rw [hr]
  exact ht

/-- C2, counterexample. Two calls of `createReceipt` for the same
completed payment, with two draws of `generateReceiptNumber` on the same
date, return different receipt identifiers and leave two receipt records
for that payment. -/
theorem C2_idempotence_counterexample :
    generateReceiptNumber 2026 1 15 0 ≠ generateReceiptNumber 2026 1 15 1 ∧
    (createReceipt store0 paymentDone (generateReceiptNumber 2026 1 15 0) 1).2 ≠
      (createReceipt (createReceipt store0 paymentDone (generateReceiptNumber 2026 1 15 0) 1).1
        paymentDone (generateReceiptNumber 2026 1 15 1) 2).2 ∧
    receiptsForPayment
      (createReceipt (createReceipt store0 paymentDone (generateReceiptNumber 2026 1 15 0) 1).1
        paymentDone (generateReceiptNumber 2026 1 15 1) 2).1 "P1" = 2 := by
  exact ⟨by decide, by decide, by decide⟩

/-- C2 (amended): `createReceipt` keys each receipt by the freshly
generated receipt number and writes unconditionally; called twice with
the same completed payment and distinct generated numbers, it returns two
different identifiers and leaves two distinct receipt records, both
referencing that payment — the second call is not idempotent. -/
theorem C2_amended_duplicate_receipts (s : Store) (p : Payment) (r1 r2 : String) (t1 t2 : Nat)
    (hne : r1 ≠ r2) :
    (createReceipt s p r1 t1).2 = r1 ∧
    (createReceipt (createReceipt s p r1 t1).1 p r2 t2).2 = r2 ∧
    Coll.get ((createReceipt (createReceipt s p r1 t1).1 p r2 t2).1).receipts r1 =
      some (mkReceipt p r1 t1) ∧
    Coll.get ((createReceipt (createReceipt s p r1 t1).1 p r2 t2).1).receipts r2 =
      some (mkReceipt p r2 t2) ∧
    (mkReceipt p r1 t1).paymentId = p.id ∧ (mkReceipt p r2 t2).paymentId = p.id ∧
    (mkReceipt p r1 t1).id ≠ (mkReceipt p r2 t2).id := by
  refine ⟨rfl, rfl, ?_, ?_, rfl, rfl, hne⟩
  · show Coll.get (Coll.set (Coll.set s.receipts r1 (mkReceipt p r1 t1)) r2 (mkReceipt p r2 t2)) r1 =
      some (mkReceipt p r1 t1)
    rw [Coll.get_set_ne _ _ _ _ (Ne.symm hne), Coll.get_set_self]
  · show Coll.get (Coll.set (Coll.set s.receipts r1 (mkReceipt p r1 t1)) r2 (mkReceipt p r2 t2)) r2 =
      some (mkReceipt p r2 t2)
    rw [Coll.get_set_self]

/-- Witness for the amended C2 theorem with two concrete distinct receipt
numbers. -/
theorem C2_amended_duplicate_receipts_witness :
    Coll.get ((createReceipt (createReceipt store0 paymentDone "RCP-20260115-0000" 1).1
        paymentDone "RCP-20260115-0001" 2).1).receipts "RCP-20260115-0000" =
      some (mkReceipt paymentDone "RCP-20260115-0000" 1) ∧
    Coll.get ((createReceipt (createReceipt store0 paymentDone "RCP-20260115-0000" 1).1
        paymentDone "RCP-20260115-0001" 2).1).receipts "RCP-20260115-0001" =
      some (mkReceipt paymentDone "RCP-20260115-0001" 2) := by
  have h := C2_amended_duplicate_receipts store0 paymentDone "RCP-20260115-0000"
    "RCP-20260115-0001" 1 2 (by decide)
  exact ⟨h.2.2.1, h.2.2.2.1⟩

/-- C3, counterexample. The bill `B2` is in the terminal `paid` status,
yet `updateBillStatus` happily writes the illegal transition
`paid → pending`: nothing is rejected and the write occurs. -/
theorem C3_illegal_transition_counterexample :
    Coll.get storePaid.bills "B2" = some billPaid ∧ billPaid.status = "paid" ∧
    billStatusIn (updateBillStatus storePaid "B2" "pending" 7) "B2" = some "pending" := by
  exact ⟨by decide, rfl, by decide⟩

/-- C3 (amended): `updateBillStatus` performs no transition-legality check
at all; for any existing bill it unconditionally writes the requested
status (touching only `status` and `updatedAt`), silently accepting
illegal transitions, and it fails only when the bill document does not
exist. -/
theorem C3_amended_unconditional_write (s : Store) (billId status : String) (now : Nat)
    (b : Bill) (hget : Coll.get s.bills billId = some b) :
    updateBillStatus s billId status now =
      Except.ok
        { s with bills := Coll.set s.bills billId { b with status := status, updatedAt := now } } := by
  simp [updateBillStatus, hget]

/-- Witness for the amended C3 theorem at the paid bill `B2`. -/
theorem C3_amended_unconditional_write_witness :
    updateBillStatus storePaid "B2" "pending" 7 =
      Except.ok
        { storePaid with
          bills := Coll.set storePaid.bills "B2" { billPaid with status := "pending", updatedAt := 7 } } :=
  C3_amended_unconditional_write storePaid "B2" "pending" 7 billPaid (by decide)

/-- C4, counterexample. For an invalid card instrument the call throws the
fixed generic error `'Invalid card information'` instead of recording a
`failed` payment: the same opaque error results whether the card number
or the CVV is at fault and whatever the settlement simulation would have
returned, and an error result means nothing was written. -/
theorem C4_failed_payment_counterexample :
    processCardPayment store0 pd1 cardBadNumber "P1" "R1" (SettlementResult.success "T") 0 26 10 =
      Except.error "Invalid card information" ∧
    processCardPayment store0 pd1 cardBadCvvOnly "P1" "R1" (SettlementResult.failure "declined") 0 26 10 =
      Except.error "Invalid card information" := by
  exact ⟨rfl, rfl⟩

/-- C4 (amended): for every card payment whose instrument fails
validation, processing aborts immediately by throwing the generic error
`'Invalid card information'` — before any write, so no `failed` payment
document carrying the validation reasons is recorded — and no settlement
attempt is made: the result does not depend on the settlement outcome. -/
theorem C4_amended_generic_abort (s : Store) (pd : PaymentData) (card : CardData)
    (pid rid : String) (res res' : SettlementResult) (now curYear2 curMonth : Nat)
    (hv : validateCardData curYear2 curMonth card = false) :
    processCardPayment s pd card pid rid res now curYear2 curMonth =
      Except.error "Invalid card information" ∧
    processCardPayment s pd card pid rid res' now curYear2 curMonth =
      processCardPayment s pd card pid rid res now curYear2 curMonth := by
  constructor <;> simp [processCardPayment, hv]

/-- Witness for the amended C4 theorem: an invalid instrument gives the
same thrown error under a successful and under a failing settlement
simulation. -/
theorem C4_amended_generic_abort_witness :
    processCardPayment store0 pd1 cardBadNumber "P1" "R1" (SettlementResult.failure "declined") 0 26 10 =
      processCardPayment store0 pd1 cardBadNumber "P1" "R1" (SettlementResult.success "T") 0 26 10 :=
  (C4_amended_generic_abort store0 pd1 cardBadNumber "P1" "R1" (SettlementResult.success "T")
    (SettlementResult.failure "declined") 0 26 10 (by decide)).2

/-- C5: `validateCardNumber` returns true if and only if the input, after
stripping whitespace, consists of 13-19 digits and its Luhn sum — double
every second digit from the rightmost, subtract 9 from a doubled digit
exceeding 9, sum all digits — is divisible by 10; in particular
`4532015112830366` is accepted and `4532015112830367` is rejected. -/
theorem C5_luhn_validation :
    (∀ cardNumber : String,
      validateCardNumber cardNumber = true ↔
        ((stripWS cardNumber).data.all Char.isDigit = true ∧
         13 ≤ (stripWS cardNumber).length ∧ (stripWS cardNumber).length ≤ 19 ∧
         luhnSumSpec (((stripWS cardNumber).data.reverse).map charDigit) % 10 = 0)) ∧
    validateCardNumber "4532015112830366" = true ∧
    validateCardNumber "4532015112830367" = false := by
  refine ⟨?_, by decide, by decide⟩
  intro cn
  simp only [validateCardNumber, luhnLoop_false_spec]
  by_cases hA : (stripWS cn).data.all Char.isDigit = true <;>
    by_cases hB : 13 ≤ (stripWS cn).length <;>
      by_cases hC : (stripWS cn).length ≤ 19 <;>
        simp [hA, hB, hC]

/-- C6, counterexample. A card failing only the CVV check and a card
failing all three checks have different reason lists inside
`validateCardData`, yet the function returns the same single boolean for
both: the reasons are collapsed into one opaque result, not returned. -/
theorem C6_reasons_collapsed_counterexample :
    cardDataErrors 26 10 cardBadCvvOnly = ["Invalid CVV"] ∧
    cardDataErrors 26 10 cardAllBad =
      ["Invalid card number", "Invalid expiry date", "Invalid CVV"] ∧
    validateCardData 26 10 cardBadCvvOnly = validateCardData 26 10 cardAllBad := by
  exact ⟨by decide, by decide, by decide⟩

/-- C6 (amended): `validateCardData` runs all three checks regardless of
earlier failures and accumulates every failing reason in its internal
list — each of the three messages is present exactly when its check
fails — but the function then returns only the single boolean
`errors.length === 0`, discarding the reasons. -/
theorem C6_amended_all_checks_boolean (curYear2 curMonth : Nat) (card : CardData) :
    ("Invalid card number" ∈ cardDataErrors curYear2 curMonth card ↔
       validateCardNumber card.number = false) ∧
    ("Invalid expiry date" ∈ cardDataErrors curYear2 curMonth card ↔
       validateExpiryDate curYear2 curMonth card.expiry = false) ∧
    ("Invalid CVV" ∈ cardDataErrors curYear2 curMonth card ↔ validateCVV card.cvv = false) ∧
    (validateCardData curYear2 curMonth card = true ↔
       cardDataErrors curYear2 curMonth card = []) := by
  cases h1 : validateCardNumber card.number <;>
    cases h2 : validateExpiryDate curYear2 curMonth card.expiry <;>
      cases h3 : validateCVV card.cvv <;>
        simp [cardDataErrors, validateCardData, h1, h2, h3]

/-- C7: for every payment attempt whose settlement simulation fails, the
payment document is recorded as `failed` carrying the failure reason, the
bills, receipts and notifications collections are left exactly as they
were (no bill touched, no receipt created, no confirmation notification
written), the only write of the run is the failed payment document, and
the returned result reports the failure with its reason. -/
theorem C7_failure_frame (s : Store) (pd : PaymentData) (pid rid reason : String) (now : Nat) :
    ∃ r, processPayment s pd pid rid (SettlementResult.failure reason) now = Except.ok r ∧
      r.store.bills = s.bills ∧ r.store.receipts = s.receipts ∧
      r.store.notifications = s.notifications ∧
      r.trace = [WriteEvent.paymentWrite pid "failed"] ∧
      r.success = false ∧ r.message = reason ∧
      ∃ p, Coll.get r.store.payments pid = some p ∧
        p.status = "failed" ∧ p.errorMessage = some reason := by
  exact ⟨_, rfl, rfl, rfl, rfl, rfl, rfl, rfl, _, Coll.get_set_self _ _ _, rfl, rfl⟩

/-- C8: every payment-document write `processPayment` performs carries the
final status determined by the settlement outcome — `completed` on
success, `failed` on failure, never `pending` — and a completed run
writes the payment document exactly once, readable back with that final
status; a thrown run performs no payment write at all (errors carry no
store in this model precisely because the source throws before writing). -/
theorem C8_single_final_write (s : Store) (pd : PaymentData) (pid rid : String)
    (res : SettlementResult) (now : Nat) (r : RunResult)
    (h : processPayment s pd pid rid res now = Except.ok r) :
    paymentWriteStatuses r.trace = [settlementStatus res] ∧
    settlementStatus res ≠ "pending" ∧
    ∃ p, Coll.get r.store.payments pid = some p ∧ p.status = settlementStatus res := by
  cases res with
  | success tok =>
      cases hb : pd.billId with
      | none =>
          simp only [processPayment, hb] at h
          injection h with h'
          subst h'
          exact ⟨rfl, (by decide : ("completed" : String) ≠ "pending"),
            ⟨_, Coll.get_set_self _ _ _, rfl⟩⟩
      | some b =>
          cases hu : updateBillStatus s b "paid" now with
          | error e =>
              rw [processPayment] at h
              simp only [hb, hu] at h
              exact Except.noConfusion h
          | ok s1 =>
              simp only [processPayment, hb, hu] at h
              injection h with h'
              subst h'
              exact ⟨rfl, (by decide : ("completed" : String) ≠ "pending"),
                ⟨_, Coll.get_set_self _ _ _, rfl⟩⟩
  | failure err =>
      simp only [processPayment] at h
      injection h with h'
      subst h'
      exact ⟨rfl, (by decide : ("failed" : String) ≠ "pending"),
        ⟨_, Coll.get_set_self _ _ _, rfl⟩⟩

/-- Witness for C8 at a concrete successful no-bill run. -/
theorem C8_single_final_write_witness :
    paymentWriteStatuses c8r.trace = [settlementStatus (SettlementResult.success "T")] ∧
    settlementStatus (SettlementResult.success "T") ≠ "pending" ∧
    ∃ p, Coll.get c8r.store.payments "P1" = some p ∧
      p.status = settlementStatus (SettlementResult.success "T") :=
  C8_single_final_write store0 pdNoBill "P1" "R1" (SettlementResult.success "T") 0 c8r rfl

/-- C9: `getUnreadNotificationCount` never propagates an error: its result
is a non-negative count; when the underlying persistence query fails the
catch block returns 0, and when it succeeds the result is the size of the
member's unread query snapshot. -/
theorem C9_unread_count_total (qres : Except String Store) (memberId : String) :
    0 ≤ getUnreadNotificationCount qres memberId ∧
    (∀ msg, qres = Except.error msg → getUnreadNotificationCount qres memberId = 0) ∧
    (∀ s, qres = Except.ok s →
      getUnreadNotificationCount qres memberId = (unreadFor s memberId).length) := by
  refine ⟨Nat.zero_le _, ?_, ?_⟩
  · intro msg h
    subst h
    rfl
  · intro s h
    subst h
    rfl

/-- Witness for C9 at a concrete failing query. -/
theorem C9_unread_count_total_witness :
    getUnreadNotificationCount (Except.error "store unreachable") "M1" = 0 :=
  (C9_unread_count_total (Except.error "store unreachable") "M1").2.1 "store unreachable" rfl

/-- C10: every notification document written by `sendNotification` (the
document stored under the generated id) and every document the bulk batch
write adds is built by the shared object literal, which always carries
status `unread` and a null `readAt`, and defaults the priority to
`medium` when the request omits it. -/
theorem C10_notification_invariants (s : Store) (req : NotificationRequest) (nid : String)
    (now : Nat) (reqs : List NotificationRequest) (ids : List String) :
    Coll.get (sendNotification s req nid now).1.notifications nid =
      some (mkNotification req nid now) ∧
    (∀ k r, Coll.get (sendBulkNotifications s reqs ids now).1.notifications k = some r →
      Coll.get s.notifications k = some r ∨
        ∃ q i, (q, i) ∈ reqs.zip ids ∧ r = mkNotification q i now) ∧
    (∀ q i t, (mkNotification q i t).status = "unread" ∧
      (mkNotification q i t).readAt = none ∧
      (q.priority = none → (mkNotification q i t).priority = "medium")) := by
  refine ⟨Coll.get_set_self _ _ _, ?_, ?_⟩
  · intro k r h
    exact bulk_foldl_get now (reqs.zip ids) s k r h
  · intro q i t
    refine ⟨rfl, rfl, ?_⟩
    intro hq
    simp [mkNotification, jsOrString, hq]

/-- Witness for C10 at a concrete priority-omitting request. -/
theorem C10_notification_invariants_witness :
    Coll.get (sendNotification store0 req0 "N1" 5).1.notifications "N1" =
      some (mkNotification req0 "N1" 5) ∧
    (mkNotification req0 "N1" 5).status = "unread" ∧
    (mkNotification req0 "N1" 5).readAt = none ∧
    (mkNotification req0 "N1" 5).priority = "medium" := by
  have h := C10_notification_invariants store0 req0 "N1" 5 [] []
  exact ⟨h.1, (h.2.2 req0 "N1" 5).1, (h.2.2 req0 "N1" 5).2.1, (h.2.2 req0 "N1" 5).2.2 rfl⟩

end GymMgmt
